import Mathlib

/-!
Verification development for the valnk single-table key scheme and
pagination core.

The definitions below are a shallow embedding of the Rust sources under
src/: pure Rust functions become Lean functions, fallible Rust functions
return Except, and the two effectful inputs of entity construction
(UUID generation and the current time) are passed as explicit parameters.
Rust String values are modelled as Lean String (a list of Unicode scalar
values); byte-lexicographic comparison of the ASCII strings produced by
the key encoder coincides with scalar-value lexicographic comparison,
which is the order `lexLtB` below decides.

External collaborators are modelled at their documented interfaces:
the DynamoDB Query call (src/src/data/api/submission.rs issues it) is
modelled by `runQuery` following the documented Query semantics
(ScanIndexForward true means ascending sort-key order, Limit bounds the
page, LastEvaluatedKey is returned when more results remain), and the
serde_json serialization of a string-to-string map (used by the cursor
codec in src/src/data/api/cursor.rs) is modelled by the compact JSON
renderer and parser below.
-/

deriving instance DecidableEq for Except

/-- Byte-lexicographic strict order on character lists, decided as a
Bool.  For the ASCII strings built by the key encoder this is exactly
the byte order DynamoDB sorts by. -/
def lexLtB : List Char → List Char → Bool
  | [], [] => false
  | [], _ :: _ => true
  | _ :: _, [] => false
  | a :: as, b :: bs =>
    if a.toNat < b.toNat then true
    else if b.toNat < a.toNat then false
    else lexLtB as bs

/-- Non-strict companion of `lexLtB`. -/
def lexLeB (a b : List Char) : Bool := !(lexLtB b a)

/-- Decimal digit character (0 ≤ d ≤ 9), as the Rust formatter renders
base-10 digits. -/
def digitChar : Nat → Char
  | 0 => '0' | 1 => '1' | 2 => '2' | 3 => '3' | 4 => '4'
  | 5 => '5' | 6 => '6' | 7 => '7' | 8 => '8' | _ => '9'

/-- Most-significant-first decimal digits of a natural number; the fuel
parameter makes the recursion structural so the kernel can evaluate it.
With fuel greater than n this is the usual base-10 rendering with no
leading zeros (and 0 renders as "0"). -/
def natToDigitsAux : Nat → Nat → List Char
  | 0, _ => []
  | fuel + 1, n =>
    if n < 10 then [digitChar n]
    else natToDigitsAux fuel (n / 10) ++ [digitChar (n % 10)]

/-- Decimal digits of n, most significant first. -/
def natToDigits (n : Nat) : List Char := natToDigitsAux (n + 1) n

/-- Left-pad a character list with '0' up to width w (no-op when the
list is already at least w long). -/
def padLeftZeros (w : Nat) (l : List Char) : List Char :=
  List.replicate (w - l.length) '0' ++ l

/-- Embedding of the Rust format specifier \x7bn:010\x7d applied to an
i64: zero-padded to overall width 10, and for a negative number the
sign is emitted first with the zero padding between the sign and the
digits (sign-aware zero padding), exactly as Rust's formatter does. -/
def formatIntPad10 (n : Int) : String :=
  if n < 0 then String.mk ('-' :: padLeftZeros 9 (natToDigits n.natAbs))
  else String.mk (padLeftZeros 10 (natToDigits n.toNat))

namespace submission

/-- src/src/data/model/submission.rs: SUBMISSION_TAG. -/
def SUBMISSION_TAG : String := "SUBMS"

/-- src/src/data/model/submission.rs: TOPIC_TAG. -/
def TOPIC_TAG : String := "TOPIC"

/-- src/src/data/model/submission.rs: AUTHOR_TAG. -/
def AUTHOR_TAG : String := "AUTHR"

end submission

/-- src/src/data/model/entity.rs: EntityId, an opaque string newtype. -/
structure EntityId where
  val : String
deriving DecidableEq

/-- src/src/data/model/entity.rs: EntityId::from, which accepts exactly
the non-empty strings. -/
def EntityId.fromStr (id : String) : Except String EntityId :=
  if id.length > 0 then Except.ok (EntityId.mk id)
  else Except.error "invalid EntityId: empty id"

/-- src/src/data/model/entity.rs: EntityType. -/
inductive EntityType where
  | submission
  | comment
  | reply
deriving DecidableEq

namespace submission

/-- src/src/data/model/submission.rs: PrimaryKey (PK/SK attribute pair
of a submission item). -/
structure PrimaryKey where
  pk : String
  sk : String
deriving DecidableEq

/-- src/src/data/model/submission.rs: PrimaryKey::new. -/
def PrimaryKey.new (id : EntityId) : PrimaryKey :=
  PrimaryKey.mk (SUBMISSION_TAG ++ "#" ++ id.val) "A"

/-- src/src/data/model/submission.rs: TopicIndexKey (GSI1_PK/GSI1_SK
attribute pair of a submission item). -/
structure TopicIndexKey where
  pk : String
  sk : String
deriving DecidableEq

/-- src/src/data/model/submission.rs: TopicIndexKey::INDEX_NAME. -/
def TopicIndexKey.INDEX_NAME : String := "GSI1"

/-- src/src/data/model/submission.rs: TopicIndexKey::pk (renamed here
to pkOf, since pk is the structure field). -/
def TopicIndexKey.pkOf (topic : String) : String := TOPIC_TAG ++ "#" ++ topic

/-- src/src/data/model/submission.rs: TopicIndexKey::sk_prefix (renamed
here to skPfx). -/
def TopicIndexKey.skPfx : String := SUBMISSION_TAG ++ "#"

/-- src/src/data/model/submission.rs: TopicIndexKey::sk (renamed here
to skOf, since sk is the structure field): the sort key "SUBMS#"
followed by the score zero-padded to 10 digits. -/
def TopicIndexKey.skOf (score : Int) : String :=
  TopicIndexKey.skPfx ++ formatIntPad10 score

/-- src/src/data/model/submission.rs: TopicIndexKey::new. -/
def TopicIndexKey.new (topic : String) (score : Int) : TopicIndexKey :=
  TopicIndexKey.mk (TopicIndexKey.pkOf topic) (TopicIndexKey.skOf score)

/-- src/src/data/model/submission.rs: AuthorIndexKey (GSI2_PK/GSI2_SK
attribute pair of a submission item).  The created_at timestamp is
modelled by its Unix-seconds value, which is all the encoder reads
(`created_at.timestamp()`). -/
structure AuthorIndexKey where
  pk : String
  sk : String
deriving DecidableEq

/-- src/src/data/model/submission.rs: AuthorIndexKey::new. -/
def AuthorIndexKey.new (authorId : String) (createdAtTs : Int) : AuthorIndexKey :=
  AuthorIndexKey.mk (AUTHOR_TAG ++ "#" ++ authorId)
    (SUBMISSION_TAG ++ "#" ++ formatIntPad10 createdAtTs)

end submission

namespace submission

/-- src/src/data/model/submission.rs: Submission.  Timestamps are
modelled by their Unix-seconds values. -/
structure Submission where
  primaryKey : PrimaryKey
  topicKey : TopicIndexKey
  authorKey : AuthorIndexKey
  entityType : EntityType
  id : EntityId
  authorId : String
  topic : String
  rankingScore : Int
  title : String
  url : String
  text : String
  nVotes : Nat
  nComments : Nat
  createdAt : Int
  updatedAt : Int
deriving DecidableEq

/-- src/src/data/model/submission.rs: SubmissionBuilder (all fields
optional, defaulted or validated at build time). -/
structure SubmissionBuilder where
  id : Option EntityId := none
  authorId : Option String := none
  topic : Option String := none
  rankingScore : Option Int := none
  title : Option String := none
  url : Option String := none
  text : Option String := none
  nVotes : Option Nat := none
  nComments : Option Nat := none
  createdAt : Option Int := none
  updatedAt : Option Int := none
deriving DecidableEq

/-- src/src/data/model/submission.rs: SubmissionBuildError. -/
inductive SubmissionBuildError where
  | emptyData (field : String)
  | invalidData (field : String) (reason : String)
  | error (reason : String)
  | unknown
deriving DecidableEq

/-- src/src/data/model/submission.rs: SubmissionBuilder::build.  The
two effects of the Rust body are passed explicitly: freshId stands for
the SubmissionId::new() UUID that id defaults to, and now for
Utc::now() (as Unix seconds), the default for both timestamps. -/
def SubmissionBuilder.build (freshId : EntityId) (now : Int)
    (b : SubmissionBuilder) : Except SubmissionBuildError Submission :=
  let id := b.id.getD freshId
  match b.authorId with
  | none => Except.error (SubmissionBuildError.emptyData "author_id")
  | some authorId =>
  match b.topic with
  | none => Except.error (SubmissionBuildError.emptyData "topic")
  | some topic =>
  match b.rankingScore with
  | none => Except.error (SubmissionBuildError.emptyData "ranking_score")
  | some rankingScore =>
  match b.title with
  | none => Except.error (SubmissionBuildError.emptyData "title")
  | some title =>
  match b.url with
  | none => Except.error (SubmissionBuildError.emptyData "url")
  | some url =>
  match b.text with
  | none => Except.error (SubmissionBuildError.emptyData "text")
  | some text =>
  let nVotes := b.nVotes.getD 0
  let nComments := b.nComments.getD 0
  let createdAt := b.createdAt.getD now
  let updatedAt := b.updatedAt.getD now
  Except.ok
    { primaryKey := PrimaryKey.new id
      topicKey := TopicIndexKey.new topic rankingScore
      authorKey := AuthorIndexKey.new authorId createdAt
      entityType := EntityType.submission
      id := id
      authorId := authorId
      topic := topic
      rankingScore := rankingScore
      title := title
      url := url
      text := text
      nVotes := nVotes
      nComments := nComments
      createdAt := createdAt
      updatedAt := updatedAt }

end submission

namespace comment

/-- src/src/data/model/comment.rs: COMMENT_TAG. -/
def COMMENT_TAG : String := "COMMT"

/-- src/src/data/model/comment.rs: PrimaryKey. -/
structure PrimaryKey where
  pk : String
  sk : String
deriving DecidableEq

/-- src/src/data/model/comment.rs: PrimaryKey::new. -/
def PrimaryKey.new (id : EntityId) : PrimaryKey :=
  PrimaryKey.mk (COMMENT_TAG ++ "#" ++ id.val) "A"

/-- src/src/data/model/comment.rs: SubmissionIndexKey (GSI1, comments
grouped under their submission and ordered by ranking score). -/
structure SubmissionIndexKey where
  pk : String
  sk : String
deriving DecidableEq

/-- src/src/data/model/comment.rs: SubmissionIndexKey::new. -/
def SubmissionIndexKey.new (submissionId : EntityId) (score : Int) : SubmissionIndexKey :=
  SubmissionIndexKey.mk (submission.SUBMISSION_TAG ++ "#" ++ submissionId.val)
    (COMMENT_TAG ++ "#" ++ formatIntPad10 score)

/-- src/src/data/model/comment.rs: AuthorIndexKey. -/
structure AuthorIndexKey where
  pk : String
  sk : String
deriving DecidableEq

/-- src/src/data/model/comment.rs: AuthorIndexKey::new. -/
def AuthorIndexKey.new (authorId : String) (createdAtTs : Int) : AuthorIndexKey :=
  AuthorIndexKey.mk (submission.AUTHOR_TAG ++ "#" ++ authorId)
    (COMMENT_TAG ++ "#" ++ formatIntPad10 createdAtTs)

/-- src/src/data/model/comment.rs: Comment. -/
structure Comment where
  primaryKey : PrimaryKey
  submissionKey : SubmissionIndexKey
  authorKey : AuthorIndexKey
  entityType : EntityType
  id : EntityId
  submissionId : EntityId
  authorId : String
  rankingScore : Int
  text : String
  nLikes : Nat
  nReplies : Nat
  createdAt : Int
  updatedAt : Int
deriving DecidableEq

/-- src/src/data/model/comment.rs: CommentBuilder.  It carries a topic
field even though Comment has none. -/
structure CommentBuilder where
  id : Option EntityId := none
  submissionId : Option EntityId := none
  authorId : Option String := none
  topic : Option String := none
  rankingScore : Option Int := none
  text : Option String := none
  nLikes : Option Nat := none
  nReplies : Option Nat := none
  createdAt : Option Int := none
  updatedAt : Option Int := none
deriving DecidableEq

/-- src/src/data/model/comment.rs: CommentBuildError. -/
inductive CommentBuildError where
  | emptyData (field : String)
  | invalidData (field : String) (reason : String)
  | error (reason : String)
  | unknown
deriving DecidableEq

/-- src/src/data/model/comment.rs: CommentBuilder::with_topic. -/
def CommentBuilder.withTopic (topic : String) (b : CommentBuilder) : CommentBuilder :=
  { b with topic := some topic }

/-- src/src/data/model/comment.rs: CommentBuilder::build, with the
fresh UUID and Utc::now() passed explicitly as in
SubmissionBuilder.build. -/
def CommentBuilder.build (freshId : EntityId) (now : Int)
    (b : CommentBuilder) : Except CommentBuildError Comment :=
  let id := b.id.getD freshId
  match b.submissionId with
  | none => Except.error (CommentBuildError.emptyData "submission_id")
  | some submissionId =>
  match b.authorId with
  | none => Except.error (CommentBuildError.emptyData "author_id")
  | some authorId =>
  match b.rankingScore with
  | none => Except.error (CommentBuildError.emptyData "ranking_score")
  | some rankingScore =>
  match b.text with
  | none => Except.error (CommentBuildError.emptyData "text")
  | some text =>
  let nLikes := b.nLikes.getD 0
  let nReplies := b.nReplies.getD 0
  let createdAt := b.createdAt.getD now
  let updatedAt := b.updatedAt.getD now
  Except.ok
    { primaryKey := PrimaryKey.new id
      submissionKey := SubmissionIndexKey.new submissionId rankingScore
      authorKey := AuthorIndexKey.new authorId createdAt
      entityType := EntityType.comment
      id := id
      submissionId := submissionId
      authorId := authorId
      rankingScore := rankingScore
      text := text
      nLikes := nLikes
      nReplies := nReplies
      createdAt := createdAt
      updatedAt := updatedAt }

end comment

namespace reply

/-- src/src/data/model/reply.rs: REPLY_TAG. -/
def REPLY_TAG : String := "REPLY"

/-- src/src/data/model/reply.rs: PrimaryKey. -/
structure PrimaryKey where
  pk : String
  sk : String
deriving DecidableEq

/-- src/src/data/model/reply.rs: PrimaryKey::new. -/
def PrimaryKey.new (id : EntityId) : PrimaryKey :=
  PrimaryKey.mk (REPLY_TAG ++ "#" ++ id.val) "A"

/-- src/src/data/model/reply.rs: SubmissionCommentIndexKey (GSI1,
replies grouped under their submission, sorted by comment id then
creation time). -/
structure SubmissionCommentIndexKey where
  pk : String
  sk : String
deriving DecidableEq

/-- src/src/data/model/reply.rs: SubmissionCommentIndexKey::new. -/
def SubmissionCommentIndexKey.new (submissionId : EntityId) (commentId : EntityId)
    (createdAtTs : Int) : SubmissionCommentIndexKey :=
  SubmissionCommentIndexKey.mk (submission.SUBMISSION_TAG ++ "#" ++ submissionId.val)
    (REPLY_TAG ++ "#" ++ commentId.val ++ "#" ++ formatIntPad10 createdAtTs)

/-- src/src/data/model/reply.rs: AuthorIndexKey. -/
structure AuthorIndexKey where
  pk : String
  sk : String
deriving DecidableEq

/-- src/src/data/model/reply.rs: AuthorIndexKey::new. -/
def AuthorIndexKey.new (authorId : String) (createdAtTs : Int) : AuthorIndexKey :=
  AuthorIndexKey.mk (submission.AUTHOR_TAG ++ "#" ++ authorId)
    (REPLY_TAG ++ "#" ++ formatIntPad10 createdAtTs)

/-- src/src/data/model/reply.rs: Reply. -/
structure Reply where
  primaryKey : PrimaryKey
  submissionCommentKey : SubmissionCommentIndexKey
  authorKey : AuthorIndexKey
  entityType : EntityType
  id : EntityId
  submissionId : EntityId
  commentId : EntityId
  authorId : String
  text : String
  createdAt : Int
  updatedAt : Int
deriving DecidableEq

/-- src/src/data/model/reply.rs: ReplyBuilder. -/
structure ReplyBuilder where
  id : Option EntityId := none
  submissionId : Option EntityId := none
  commentId : Option EntityId := none
  authorId : Option String := none
  text : Option String := none
  createdAt : Option Int := none
  updatedAt : Option Int := none
deriving DecidableEq

/-- src/src/data/model/reply.rs: ReplyBuildError. -/
inductive ReplyBuildError where
  | emptyData (field : String)
  | invalidData (field : String) (reason : String)
  | error (reason : String)
  | unknown
deriving DecidableEq

/-- src/src/data/model/reply.rs: ReplyBuilder::build, with the fresh
UUID and Utc::now() passed explicitly. -/
def ReplyBuilder.build (freshId : EntityId) (now : Int)
    (b : ReplyBuilder) : Except ReplyBuildError Reply :=
  let id := b.id.getD freshId
  match b.submissionId with
  | none => Except.error (ReplyBuildError.emptyData "submission_id")
  | some submissionId =>
  match b.commentId with
  | none => Except.error (ReplyBuildError.emptyData "comment_id")
  | some commentId =>
  match b.authorId with
  | none => Except.error (ReplyBuildError.emptyData "author_id")
  | some authorId =>
  match b.text with
  | none => Except.error (ReplyBuildError.emptyData "text")
  | some text =>
  let createdAt := b.createdAt.getD now
  let updatedAt := b.updatedAt.getD now
  Except.ok
    { primaryKey := PrimaryKey.new id
      submissionCommentKey := SubmissionCommentIndexKey.new submissionId commentId createdAt
      authorKey := AuthorIndexKey.new authorId createdAt
      entityType := EntityType.reply
      id := id
      submissionId := submissionId
      commentId := commentId
      authorId := authorId
      text := text
      createdAt := createdAt
      updatedAt := updatedAt }

end reply

/-- src/src/data/api/cursor.rs: Cursor, a newtype over
HashMap<String, String>.  The hash map is modelled as an association
list in iteration order; a map value has pairwise-distinct keys. -/
structure Cursor where
  fields : List (String × String)
deriving DecidableEq

/-- Lowercase hexadecimal digit character (0 ≤ n ≤ 15), as serde_json
renders the two hex digits of a control-character escape. -/
def hexDigitChar : Nat → Char
  | 0 => '0' | 1 => '1' | 2 => '2' | 3 => '3' | 4 => '4'
  | 5 => '5' | 6 => '6' | 7 => '7' | 8 => '8' | 9 => '9'
  | 10 => 'a' | 11 => 'b' | 12 => 'c' | 13 => 'd' | 14 => 'e' | _ => 'f'

/-- serde_json string escaping of one character: quotation mark and
backslash are escaped, the five short control escapes are used where
they exist, every other control character becomes \u00XY with
lowercase hex, and all remaining characters pass through verbatim. -/
def escapeChar (c : Char) : List Char :=
  if c = '"' then ['\\', '"']
  else if c = '\\' then ['\\', '\\']
  else if c = '\x08' then ['\\', 'b']
  else if c = '\x09' then ['\\', 't']
  else if c = '\x0a' then ['\\', 'n']
  else if c = '\x0c' then ['\\', 'f']
  else if c = '\x0d' then ['\\', 'r']
  else if c.toNat < 32 then
    ['\\', 'u', '0', '0', hexDigitChar (c.toNat / 16), hexDigitChar (c.toNat % 16)]
  else [c]

/-- serde_json escaping of a whole string body. -/
def escString (s : List Char) : List Char := (s.map escapeChar).flatten

/-- A JSON string literal: quotation marks around the escaped body. -/
def renderStringChars (s : String) : List Char :=
  '"' :: (escString s.data ++ ['"'])

/-- One rendered object member, key:value with no whitespace (serde_json
to_string emits the compact form). -/
def renderMember (kv : String × String) : List Char :=
  renderStringChars kv.1 ++ ':' :: renderStringChars kv.2

/-- The rendered members after the first one: each preceded by a comma,
with the closing brace at the end. -/
def renderMembersRest : List (String × String) → List Char
  | [] => ['\x7d']
  | kv :: tl => ',' :: (renderMember kv ++ renderMembersRest tl)

/-- Compact JSON rendering of a string-to-string map, exactly the
serde_json to_string output for the underlying HashMap (in iteration
order). -/
def renderMap : List (String × String) → List Char
  | [] => ['\x7b', '\x7d']
  | kv :: tl => '\x7b' :: (renderMember kv ++ renderMembersRest tl)

/-- src/src/data/api/cursor.rs: the Display impl for Cursor, i.e.
serde_json::to_string of the underlying map. -/
def Cursor.render (c : Cursor) : String := String.mk (renderMap c.fields)

/-- The four JSON whitespace characters serde_json skips between
tokens. -/
def jsonWs (c : Char) : Bool := c = ' ' || c = '\x09' || c = '\x0a' || c = '\x0d'

/-- Skip leading JSON whitespace. -/
def skipWs : List Char → List Char
  | [] => []
  | c :: cs => if jsonWs c then skipWs cs else c :: cs

/-- Parse one hexadecimal digit (serde_json accepts both cases). -/
def parseHexDigit (c : Char) : Option Nat :=
  if 48 ≤ c.toNat ∧ c.toNat ≤ 57 then some (c.toNat - 48)
  else if 97 ≤ c.toNat ∧ c.toNat ≤ 102 then some (c.toNat - 87)
  else if 65 ≤ c.toNat ∧ c.toNat ≤ 70 then some (c.toNat - 55)
  else none

/-- Parse exactly four hexadecimal digits into their value. -/
def parseHex4 : List Char → Except String (Nat × List Char)
  | h1 :: h2 :: h3 :: h4 :: rest =>
    match parseHexDigit h1, parseHexDigit h2, parseHexDigit h3, parseHexDigit h4 with
    | some a, some b, some c, some d => Except.ok (4096 * a + 256 * b + 16 * c + d, rest)
    | _, _, _, _ => Except.error "invalid hex escape"
  | _ => Except.error "unexpected end of input in unicode escape"

/-- Parse the tail of a \uXXXX escape (the four hex digits onward),
handling surrogate pairs the way serde_json does: a high surrogate must
be followed by an escaped low surrogate, and a lone surrogate is an
error. -/
def parseUnicodeEscape (l : List Char) : Except String (Char × List Char) :=
  match parseHex4 l with
  | Except.error e => Except.error e
  | Except.ok (n, rest) =>
    if 55296 ≤ n ∧ n ≤ 56319 then
      match rest with
      | '\\' :: 'u' :: rest2 =>
        match parseHex4 rest2 with
        | Except.error e => Except.error e
        | Except.ok (m, rest3) =>
          if 56320 ≤ m ∧ m ≤ 57343 then
            Except.ok (Char.ofNat (65536 + (n - 55296) * 1024 + (m - 56320)), rest3)
          else Except.error "invalid surrogate pair"
      | _ => Except.error "unexpected end of surrogate pair"
    else if 56320 ≤ n ∧ n ≤ 57343 then Except.error "lone surrogate"
    else Except.ok (Char.ofNat n, rest)

/-- Parse the character an escape sequence denotes (the character after
the backslash onward). -/
def parseEscape : List Char → Except String (Char × List Char)
  | [] => Except.error "unexpected end of input after backslash"
  | e :: rest =>
    if e = '"' then Except.ok ('"', rest)
    else if e = '\\' then Except.ok ('\\', rest)
    else if e = '/' then Except.ok ('/', rest)
    else if e = 'b' then Except.ok ('\x08', rest)
    else if e = 't' then Except.ok ('\x09', rest)
    else if e = 'n' then Except.ok ('\x0a', rest)
    else if e = 'f' then Except.ok ('\x0c', rest)
    else if e = 'r' then Except.ok ('\x0d', rest)
    else if e = 'u' then parseUnicodeEscape rest
    else Except.error "invalid escape"

/-- Parse a JSON string body up to the closing quotation mark.  Raw
control characters are rejected as serde_json rejects them.  The fuel
bounds the number of produced characters and keeps the recursion
structural; callers pass at least the input length. -/
def parseStrBody : Nat → List Char → Except String (List Char × List Char)
  | 0, _ => Except.error "string too long"
  | _ + 1, [] => Except.error "unexpected end of input in string"
  | fuel + 1, c :: rest =>
    if c = '"' then Except.ok ([], rest)
    else if c = '\\' then
      match parseEscape rest with
      | Except.error e => Except.error e
      | Except.ok (ch, rest2) =>
        match parseStrBody fuel rest2 with
        | Except.error e => Except.error e
        | Except.ok (s, rest3) => Except.ok (ch :: s, rest3)
    else if c.toNat < 32 then Except.error "control character in string"
    else
      match parseStrBody fuel rest with
      | Except.error e => Except.error e
      | Except.ok (s, rest3) => Except.ok (c :: s, rest3)

/-- Parse a JSON string literal (opening quotation mark onward). -/
def parseJsonString (fuel : Nat) : List Char → Except String (String × List Char)
  | '"' :: rest =>
    match parseStrBody fuel rest with
    | Except.error e => Except.error e
    | Except.ok (s, rest2) => Except.ok (String.mk s, rest2)
  | _ => Except.error "expected string"

/-- Insert a key/value pair into an association-list map the way
HashMap::insert does: overwrite the existing key or add a new one. -/
def insertKV : List (String × String) → String → String → List (String × String)
  | [], k, v => [(k, v)]
  | (k0, v0) :: rest, k, v =>
    if k0 = k then (k, v) :: rest else (k0, v0) :: insertKV rest k v

/-- Repeated insertion of members into an association-list map, the
accumulation from_str performs. -/
def insertAll (acc : List (String × String)) (fields : List (String × String)) :
    List (String × String) :=
  fields.foldl (fun m kv => insertKV m kv.1 kv.2) acc

/-- Parse one key:value member of a string map. -/
def parseMember (fuel : Nat) (l : List Char) : Except String ((String × String) × List Char) :=
  match parseJsonString fuel l with
  | Except.error e => Except.error e
  | Except.ok (k, r1) =>
    match skipWs r1 with
    | ':' :: r2 =>
      match parseJsonString fuel (skipWs r2) with
      | Except.error e => Except.error e
      | Except.ok (v, r3) => Except.ok ((k, v), r3)
    | _ => Except.error "expected colon"

/-- Parse the members after the first one: a comma then a member,
repeatedly, until the closing brace.  Members accumulate by
HashMap::insert, so a repeated key overwrites. -/
def parseMembersRest : Nat → List (String × String) → List Char →
    Except String (List (String × String) × List Char)
  | 0, _, _ => Except.error "object too long"
  | fuel + 1, acc, l =>
    match skipWs l with
    | '\x7d' :: rest => Except.ok (acc, rest)
    | ',' :: rest =>
      match parseMember fuel (skipWs rest) with
      | Except.error e => Except.error e
      | Except.ok (kv, r2) => parseMembersRest fuel (insertKV acc kv.1 kv.2) r2
    | _ => Except.error "expected comma or closing brace"

/-- Parse a JSON object whose values are strings (the opening brace
onward). -/
def parseJsonObject (fuel : Nat) (l : List Char) :
    Except String (List (String × String) × List Char) :=
  match l with
  | '\x7b' :: rest =>
    (match skipWs rest with
     | '\x7d' :: r2 => Except.ok ([], r2)
     | r2 =>
       match parseMember fuel r2 with
       | Except.error e => Except.error e
       | Except.ok (kv, r3) => parseMembersRest fuel [(kv.1, kv.2)] r3)
  | _ => Except.error "expected object"

/-- serde_json::from_str for a string-to-string map: skip leading
whitespace, parse one object, and require only whitespace to follow
(Deserializer::end rejects trailing characters). -/
def parseJsonStrMap (s : String) : Except String (List (String × String)) :=
  let l := skipWs s.data
  match parseJsonObject (l.length + 1) l with
  | Except.error e => Except.error e
  | Except.ok (m, rest) =>
    if skipWs rest = [] then Except.ok m else Except.error "trailing characters"

/-- src/src/data/api/cursor.rs: the FromStr impl for Cursor, i.e.
serde_json::from_str into the newtype over HashMap<String, String>. -/
def Cursor.fromStr (s : String) : Except String Cursor :=
  match parseJsonStrMap s with
  | Except.error e => Except.error e
  | Except.ok m => Except.ok (Cursor.mk m)

namespace api

/-- src/src/data/api/result.rs: Error.  The serde_dynamo error payloads
are modelled by their messages. -/
inductive Error where
  | badRequest (msg : String)
  | invalidInputData (e : String)
  | invalidOutputData (e : String)
  | serverError (msg : String)
  | unknown (msg : String)
deriving DecidableEq

/-- src/src/data/api/submission.rs: ListItemsByTopicInput. -/
structure ListItemsByTopicInput where
  topic : String
  limit : Option Int
  reverse : Option Bool
  startCursor : Option Cursor
deriving DecidableEq

/-- src/src/data/api/submission.rs: ListItemsByTopicInput::new. -/
def ListItemsByTopicInput.new (topic : String) : ListItemsByTopicInput :=
  ListItemsByTopicInput.mk topic none none none

/-- src/src/data/api/submission.rs: ListItemsByTopicOutput. -/
structure ListItemsByTopicOutput where
  items : List submission.Submission
  nextCursor : Option Cursor
deriving DecidableEq

/-- A DynamoDB key image: attribute name/value pairs, all string-typed
here (every key attribute of this table is a string).  Used for both
ExclusiveStartKey and LastEvaluatedKey. -/
def KeyImage := List (String × String)
deriving instance DecidableEq for KeyImage

/-- The query request the planner assembles in list_items_by_topic
(src/src/data/api/submission.rs lines 147-165): partition equality on
GSI1_PK, begins_with on GSI1_SK, scan direction, page limit and
optional exclusive start key. -/
structure QueryRequest where
  keyPk : String
  skPfx : String
  scanIndexForward : Bool
  limit : Int
  exclusiveStartKey : Option KeyImage
deriving DecidableEq

/-- The raw query response: a page of items plus the last evaluated key
when more results remain. -/
structure QueryResponse where
  items : List submission.Submission
  lastEvaluatedKey : Option KeyImage
deriving DecidableEq

/-- Byte prefix test on character lists (begins_with of the key
condition; a codepoint prefix is exactly a UTF-8 byte prefix). -/
def isPrefixOfChars : List Char → List Char → Bool
  | [], _ => true
  | _ :: _, [] => false
  | a :: as, b :: bs => a = b && isPrefixOfChars as bs

/-- The key image DynamoDB reports for a submission row of the GSI1
index: the index keys together with the table primary key. -/
def keyImageOf (s : submission.Submission) : KeyImage :=
  [("PK", s.primaryKey.pk), ("SK", s.primaryKey.sk),
   ("GSI1_PK", s.topicKey.pk), ("GSI1_SK", s.topicKey.sk)]

/-- Insert a submission into a list kept ascending by GSI1 sort key. -/
def insertBySk (x : submission.Submission) : List submission.Submission →
    List submission.Submission
  | [] => [x]
  | y :: ys =>
    if lexLeB x.topicKey.sk.data y.topicKey.sk.data then x :: y :: ys
    else y :: insertBySk x ys

/-- Sort a list of submissions ascending by GSI1 sort key (the order
the index stores them in). -/
def sortBySk : List submission.Submission → List submission.Submission
  | [] => []
  | x :: xs => insertBySk x (sortBySk xs)

/-- Modelled from the documented DynamoDB Query semantics (the external
storage collaborator): restrict to the partition, keep sort keys with
the requested prefix, read in ascending sort-key order when
ScanIndexForward is true and descending when it is false, resume
strictly after the exclusive start key, return at most Limit items, and
report a LastEvaluatedKey exactly when results remain beyond the
page. -/
def runQuery (snapshot : List submission.Submission) (q : QueryRequest) : QueryResponse :=
  let matching := snapshot.filter
    (fun s => s.topicKey.pk = q.keyPk && isPrefixOfChars q.skPfx.data s.topicKey.sk.data)
  let sorted := sortBySk matching
  let ordered := if q.scanIndexForward then sorted else sorted.reverse
  let afterStart :=
    match q.exclusiveStartKey with
    | none => ordered
    | some k => ((ordered.dropWhile (fun s => keyImageOf s ≠ k)).drop 1)
  let page := afterStart.take q.limit.toNat
  let lek :=
    if page.length < afterStart.length then (page.getLast?).map keyImageOf
    else none
  QueryResponse.mk page lek

/-- The defaulting and cursor-decoding phase of list_items_by_topic
(src/src/data/api/submission.rs lines 129-145): limit defaults to 30,
reverse to false, and a supplied start cursor is converted to the
exclusive start key, a conversion failure mapping to InvalidInputData.
The serde_dynamo conversion TryFrom<Cursor> (src/src/data/api/cursor.rs
lines 22-28) is an external library call and is passed in as conv. -/
def resolveStartKey (conv : Cursor → Except String KeyImage)
    (input : ListItemsByTopicInput) : Except Error (Option KeyImage) :=
  match input.startCursor with
  | none => Except.ok none
  | some cur =>
    match conv cur with
    | Except.error e => Except.error (Error.invalidInputData e)
    | Except.ok lk => Except.ok (some lk)

/-- The query list_items_by_topic issues once the start key is
resolved: note that the reverse flag is passed to ScanIndexForward
unnegated, exactly as the source does
(src/src/data/api/submission.rs line 158). -/
def planQuery (input : ListItemsByTopicInput) (esk : Option KeyImage) : QueryRequest :=
  QueryRequest.mk (submission.TopicIndexKey.pkOf input.topic)
    submission.TopicIndexKey.skPfx
    (input.reverse.getD false)
    (input.limit.getD 30)
    esk

/-- src/src/data/api/submission.rs: Client::list_items_by_topic, over a
store snapshot.  Deserialization of returned items
(serde_dynamo::from_items) is the identity here because the snapshot
already holds typed submissions, and Cursor::try_from of the last
evaluated key always succeeds on the all-string key images this table
produces; both model the successful paths of those library calls. -/
def listItemsByTopic (conv : Cursor → Except String KeyImage)
    (snapshot : List submission.Submission)
    (input : ListItemsByTopicInput) : Except Error ListItemsByTopicOutput :=
  match resolveStartKey conv input with
  | Except.error e => Except.error e
  | Except.ok esk =>
    let results := runQuery snapshot (planQuery input esk)
    let nextCursor := (results.lastEvaluatedKey).map Cursor.mk
    Except.ok (ListItemsByTopicOutput.mk results.items nextCursor)

/-- Whether a call result is the BadRequest error. -/
def isBadRequest : Except Error ListItemsByTopicOutput → Bool
  | Except.error (Error.badRequest _) => true
  | _ => false

/-- The always-successful cursor conversion: serde_dynamo::to_item maps
every string-to-string map to a map of string attribute values. -/
def attrConvOk : Cursor → Except String KeyImage := fun c => Except.ok c.fields

/-- A cursor conversion that fails, exercising the error path of
resolveStartKey. -/
def attrConvFail : Cursor → Except String KeyImage := fun _ => Except.error "conversion failed"

end api

/-- A concrete "news" submission used in the scan-direction and
pagination evaluations. -/
def newsSubmission (id : String) (score : Int) : submission.Submission :=
  { primaryKey := submission.PrimaryKey.new (EntityId.mk id)
    topicKey := submission.TopicIndexKey.new "news" score
    authorKey := submission.AuthorIndexKey.new "py0x" 1000
    entityType := EntityType.submission
    id := EntityId.mk id
    authorId := "py0x"
    topic := "news"
    rankingScore := score
    title := "t"
    url := ""
    text := "x"
    nVotes := 0
    nComments := 0
    createdAt := 1000
    updatedAt := 1000 }

/-- Snapshot holding two "news" submissions with scores 1 and 5. -/
def snapNews : List submission.Submission :=
  [newsSubmission "idA" 1, newsSubmission "idB" 5]

/-- One step of reading a decimal digit string as a number. -/
def digitStepVal (a : Nat) (c : Char) : Nat := a * 10 + (c.toNat - 48)

/-- The numeric value of a decimal digit string (most significant
first). -/
def digitsVal (l : List Char) : Nat := l.foldl digitStepVal 0

/-- Whether a character is a decimal digit. -/
def isDigitCh (c : Char) : Bool := 48 ≤ c.toNat && c.toNat ≤ 57

/-- A fully specified submission builder used as a concrete witness. -/
def sbWitness : submission.SubmissionBuilder :=
  { id := some (EntityId.mk "s1"), authorId := some "auth", topic := some "news",
    rankingScore := some 5, title := some "t", url := some "u", text := some "x",
    createdAt := some 10, updatedAt := some 10 }

/-- The submission sbWitness builds. -/
def sBuilt : submission.Submission :=
  { primaryKey := submission.PrimaryKey.new (EntityId.mk "s1")
    topicKey := submission.TopicIndexKey.new "news" 5
    authorKey := submission.AuthorIndexKey.new "auth" 10
    entityType := EntityType.submission
    id := EntityId.mk "s1", authorId := "auth", topic := "news", rankingScore := 5
    title := "t", url := "u", text := "x", nVotes := 0, nComments := 0
    createdAt := 10, updatedAt := 10 }

/-- A fully specified comment builder used as a concrete witness. -/
def cbWitness : comment.CommentBuilder :=
  { id := some (EntityId.mk "c1"), submissionId := some (EntityId.mk "s1"),
    authorId := some "auth", rankingScore := some 7, text := some "x",
    createdAt := some 11, updatedAt := some 11 }

/-- The comment cbWitness builds. -/
def cBuilt : comment.Comment :=
  { primaryKey := comment.PrimaryKey.new (EntityId.mk "c1")
    submissionKey := comment.SubmissionIndexKey.new (EntityId.mk "s1") 7
    authorKey := comment.AuthorIndexKey.new "auth" 11
    entityType := EntityType.comment
    id := EntityId.mk "c1", submissionId := EntityId.mk "s1", authorId := "auth"
    rankingScore := 7, text := "x", nLikes := 0, nReplies := 0
    createdAt := 11, updatedAt := 11 }

/-- A fully specified reply builder used as a concrete witness. -/
def rbWitness : reply.ReplyBuilder :=
  { id := some (EntityId.mk "r1"), submissionId := some (EntityId.mk "s1"),
    commentId := some (EntityId.mk "c1"), authorId := some "auth", text := some "x",
    createdAt := some 12, updatedAt := some 12 }

/-- The reply rbWitness builds. -/
def rBuilt : reply.Reply :=
  { primaryKey := reply.PrimaryKey.new (EntityId.mk "r1")
    submissionCommentKey := reply.SubmissionCommentIndexKey.new (EntityId.mk "s1")
      (EntityId.mk "c1") 12
    authorKey := reply.AuthorIndexKey.new "auth" 12
    entityType := EntityType.reply
    id := EntityId.mk "r1", submissionId := EntityId.mk "s1", commentId := EntityId.mk "c1"
    authorId := "auth", text := "x", createdAt := 12, updatedAt := 12 }

theorem digitChar_toNat : ∀ d, d < 10 → (digitChar d).toNat = 48 + d := by decide

theorem isDigitCh_digitChar : ∀ d, d < 10 → isDigitCh (digitChar d) = true := by decide

theorem foldl_digitStepVal (l : List Char) : ∀ a : Nat,
    l.foldl digitStepVal a = a * 10 ^ l.length + digitsVal l := by
  induction l with
  | nil => intro a; simp [digitsVal]
  | cons c tl ih =>
    intro a
    simp only [List.foldl_cons, List.length_cons, digitsVal]
    rw [ih (digitStepVal a c), ih (digitStepVal 0 c)]
    simp only [digitStepVal]
    ring

theorem digitsVal_cons (c : Char) (tl : List Char) :
    digitsVal (c :: tl) = (c.toNat - 48) * 10 ^ tl.length + digitsVal tl := by
  simp only [digitsVal, List.foldl_cons]
  rw [foldl_digitStepVal]
  simp only [digitStepVal, Nat.zero_mul, Nat.zero_add]
  rfl

theorem natToDigitsAux_digits : ∀ fuel n, n < fuel →
    ∀ c ∈ natToDigitsAux fuel n, isDigitCh c = true := by
  intro fuel
  induction fuel with
  | zero => intro n hn; omega
  | succ f ih =>
    intro n hn c hc
    unfold natToDigitsAux at hc
    split at hc
    · simp at hc
      subst hc
      exact isDigitCh_digitChar n (by omega)
    · rcases List.mem_append.mp hc with h1 | h2
      · exact ih (n / 10) (by omega) c h1
      · simp at h2
        subst h2
        exact isDigitCh_digitChar (n % 10) (by omega)

theorem digitsVal_natToDigitsAux : ∀ fuel n, n < fuel →
    digitsVal (natToDigitsAux fuel n) = n := by
  intro fuel
  induction fuel with
  | zero => intro n hn; omega
  | succ f ih =>
    intro n hn
    unfold natToDigitsAux
    split
    · rename_i h10
      simp [digitsVal, digitStepVal, digitChar_toNat n h10]
    · rename_i h10
      rw [digitsVal, List.foldl_append]
      have hv : List.foldl digitStepVal 0 (natToDigitsAux f (n / 10)) = n / 10 :=
        ih (n / 10) (by omega)
      rw [hv]
      simp only [List.foldl_cons, List.foldl_nil, digitStepVal,
        digitChar_toNat (n % 10) (by omega)]
      omega

theorem natToDigitsAux_length_le : ∀ fuel n k, n < fuel → n < 10 ^ k → 1 ≤ k →
    (natToDigitsAux fuel n).length ≤ k := by
  intro fuel
  induction fuel with
  | zero => intro n k hn; omega
  | succ f ih =>
    intro n k hn hnk hk
    unfold natToDigitsAux
    split
    · simpa using hk
    · rename_i h10
      have hk2 : 2 ≤ k := by
        by_contra hlt
        have hk1 : k = 1 := by omega
        subst hk1
        simp at hnk
        omega
      have hdiv : n / 10 < 10 ^ (k - 1) := by
        rw [Nat.div_lt_iff_lt_mul (by omega)]
        have : 10 ^ (k - 1) * 10 = 10 ^ k := by
          rw [← pow_succ]
          congr 1
          omega
        omega
      have := ih (n / 10) (k - 1) (by omega) hdiv (by omega)
      simp only [List.length_append, List.length_cons, List.length_nil]
      omega

theorem digitsVal_lt_pow (l : List Char) (h : ∀ c ∈ l, isDigitCh c = true) :
    digitsVal l < 10 ^ l.length := by
  induction l with
  | nil => simp [digitsVal]
  | cons c tl ih =>
    have hc := h c (List.mem_cons_self c tl)
    simp only [isDigitCh, Bool.and_eq_true, decide_eq_true_eq] at hc
    have htl := ih (fun x hx => h x (List.mem_cons_of_mem c hx))
    rw [digitsVal_cons, List.length_cons, pow_succ]
    have hd : c.toNat - 48 ≤ 9 := by omega
    have h3 : (c.toNat - 48) * 10 ^ tl.length ≤ 9 * 10 ^ tl.length :=
      Nat.mul_le_mul_right _ hd
    omega

theorem lexLtB_of_digitsVal_lt : ∀ l1 l2 : List Char, l1.length = l2.length →
    (∀ c ∈ l1, isDigitCh c = true) → (∀ c ∈ l2, isDigitCh c = true) →
    digitsVal l1 < digitsVal l2 → lexLtB l1 l2 = true := by
  intro l1
  induction l1 with
  | nil =>
    intro l2 hlen _ _ hv
    cases l2 with
    | nil => simp [digitsVal] at hv
    | cons b bs => simp at hlen
  | cons a as ih =>
    intro l2 hlen hd1 hd2 hv
    cases l2 with
    | nil => simp at hlen
    | cons b bs =>
      have hlen2 : as.length = bs.length := by simpa using hlen
      have ha := hd1 a (List.mem_cons_self a as)
      have hb := hd2 b (List.mem_cons_self b bs)
      simp only [isDigitCh, Bool.and_eq_true, decide_eq_true_eq] at ha hb
      rw [digitsVal_cons, digitsVal_cons, hlen2] at hv
      by_cases hab : a.toNat < b.toNat
      · simp [lexLtB, hab]
      · by_cases hba : b.toNat < a.toNat
        · exfalso
          have hbs : digitsVal bs < 10 ^ bs.length :=
            digitsVal_lt_pow bs (fun x hx => hd2 x (List.mem_cons_of_mem b hx))
          have hstep : (b.toNat - 48 + 1) * 10 ^ bs.length ≤
              (a.toNat - 48) * 10 ^ bs.length :=
            Nat.mul_le_mul_right _ (by omega)
          have hexp : (b.toNat - 48 + 1) * 10 ^ bs.length =
              (b.toNat - 48) * 10 ^ bs.length + 10 ^ bs.length := by ring
          omega
        · have heq : a.toNat = b.toNat := by omega
          have htl : digitsVal as < digitsVal bs := by
            rw [heq] at hv
            omega
          simp only [lexLtB, if_neg hab, if_neg hba]
          exact ih bs hlen2 (fun x hx => hd1 x (List.mem_cons_of_mem a hx))
            (fun x hx => hd2 x (List.mem_cons_of_mem b hx)) htl

theorem lexLtB_append_left (p : List Char) (a b : List Char) :
    lexLtB (p ++ a) (p ++ b) = lexLtB a b := by
  induction p with
  | nil => rfl
  | cons c cs ih => simp [lexLtB, ih]

theorem padLeftZeros_length (w : Nat) (l : List Char) (h : l.length ≤ w) :
    (padLeftZeros w l).length = w := by
  simp [padLeftZeros]
  omega

theorem foldl_digitStepVal_replicate_zero : ∀ (m : Nat) (l : List Char),
    List.foldl digitStepVal 0 (List.replicate m '0' ++ l) = List.foldl digitStepVal 0 l := by
  intro m
  induction m with
  | zero => intro l; simp
  | succ k ih =>
    intro l
    rw [List.replicate_succ, List.cons_append, List.foldl_cons]
    have h0 : digitStepVal 0 '0' = 0 := by decide
    rw [h0]
    exact ih l

theorem digitsVal_padLeftZeros (w : Nat) (l : List Char) :
    digitsVal (padLeftZeros w l) = digitsVal l := by
  simp only [digitsVal, padLeftZeros]
  exact foldl_digitStepVal_replicate_zero _ l

theorem padLeftZeros_digits (w : Nat) (l : List Char)
    (h : ∀ c ∈ l, isDigitCh c = true) :
    ∀ c ∈ padLeftZeros w l, isDigitCh c = true := by
  intro c hc
  rcases List.mem_append.mp hc with h1 | h2
  · have := List.eq_of_mem_replicate h1
    subst this
    decide
  · exact h c h2

theorem skOf_data_of_nonneg (s : Int) (h : 0 ≤ s) :
    (submission.TopicIndexKey.skOf s).data =
      "SUBMS#".data ++ padLeftZeros 10 (natToDigits s.toNat) := by
  rw [submission.TopicIndexKey.skOf, submission.TopicIndexKey.skPfx,
    submission.SUBMISSION_TAG, formatIntPad10, if_neg (by omega)]
  simp [String.data_append]

theorem lexLtB_pad10 (n1 n2 : Nat) (h12 : n1 < n2) (h2 : n2 < 10 ^ 10) :
    lexLtB (padLeftZeros 10 (natToDigits n1)) (padLeftZeros 10 (natToDigits n2)) = true := by
  unfold natToDigits
  have len1 : (natToDigitsAux (n1 + 1) n1).length ≤ 10 :=
    natToDigitsAux_length_le _ _ 10 (Nat.lt_succ_self n1) (by omega) (by omega)
  have len2 : (natToDigitsAux (n2 + 1) n2).length ≤ 10 :=
    natToDigitsAux_length_le _ _ 10 (Nat.lt_succ_self n2) h2 (by omega)
  apply lexLtB_of_digitsVal_lt
  · rw [padLeftZeros_length _ _ len1, padLeftZeros_length _ _ len2]
  · exact padLeftZeros_digits _ _ (natToDigitsAux_digits _ _ (Nat.lt_succ_self n1))
  · exact padLeftZeros_digits _ _ (natToDigitsAux_digits _ _ (Nat.lt_succ_self n2))
  · rw [digitsVal_padLeftZeros, digitsVal_padLeftZeros,
      digitsVal_natToDigitsAux _ _ (Nat.lt_succ_self n1),
      digitsVal_natToDigitsAux _ _ (Nat.lt_succ_self n2)]
    exact h12

/-- C6: for all ranking scores s1 and s2 with 0 ≤ s1 < s2 ≤
9,999,999,999, the encoded sort key TopicIndexKey::sk(s1) is
byte-lexicographically strictly before TopicIndexKey::sk(s2). -/
theorem c6_topic_sk_monotonic (s1 s2 : Int) (h0 : 0 ≤ s1) (h12 : s1 < s2)
    (h2 : s2 ≤ 9999999999) :
    lexLtB (submission.TopicIndexKey.skOf s1).data
      (submission.TopicIndexKey.skOf s2).data = true := by
  rw [skOf_data_of_nonneg s1 h0, skOf_data_of_nonneg s2 (by omega), lexLtB_append_left]
  have h10 : (10 : Nat) ^ 10 = 10000000000 := by norm_num
  apply lexLtB_pad10
  · omega
  · omega

/-- Witness for C6 at the concrete scores 3 and 7. -/
theorem c6_topic_sk_monotonic_witness :
    (0 : Int) ≤ 3 ∧ (3 : Int) < 7 ∧ (7 : Int) ≤ 9999999999 ∧
    lexLtB (submission.TopicIndexKey.skOf 3).data
      (submission.TopicIndexKey.skOf 7).data = true :=
  ⟨by decide, by decide, by decide, c6_topic_sk_monotonic 3 7 (by decide) (by decide) (by decide)⟩

/-- C7: the sort-key encoder accepts every i64 ranking score,
negative ones included, and returns an encoded string; but the
encoding of a negative score breaks the order: -100 < -5 while
sk(-100) = "SUBMS#-000000100" does not sort byte-lexicographically
before sk(-5) = "SUBMS#-000000005". -/
theorem c7_negative_scores_break_order :
    (∀ s : Int, ∃ t : String, submission.TopicIndexKey.skOf s = t) ∧
    submission.TopicIndexKey.skOf (-100) = "SUBMS#-000000100" ∧
    submission.TopicIndexKey.skOf (-5) = "SUBMS#-000000005" ∧
    ((-100 : Int) < -5) ∧
    lexLtB (submission.TopicIndexKey.skOf (-100)).data
      (submission.TopicIndexKey.skOf (-5)).data = false :=
  ⟨fun s => ⟨submission.TopicIndexKey.skOf s, rfl⟩, by decide, by decide, by decide, by decide⟩

theorem parseHexDigit_hexDigitChar : ∀ n, n < 16 → parseHexDigit (hexDigitChar n) = some n := by
  decide

theorem escString_nil : escString [] = [] := rfl

theorem escString_cons (c : Char) (s : List Char) :
    escString (c :: s) = escapeChar c ++ escString s := by
  simp [escString]

theorem escapeChar_length_pos (c : Char) : 1 ≤ (escapeChar c).length := by
  unfold escapeChar
  repeat' split
  all_goals simp

theorem parseHex4_00 (t : Nat) (ht : t < 32) (l : List Char) :
    parseHex4 ('0' :: '0' :: hexDigitChar (t / 16) :: hexDigitChar (t % 16) :: l) =
      Except.ok (t, l) := by
  have h0 : parseHexDigit '0' = some 0 := by decide
  have hd1 := parseHexDigit_hexDigitChar (t / 16) (by omega)
  have hd2 := parseHexDigit_hexDigitChar (t % 16) (by omega)
  simp [parseHex4, h0, hd1, hd2]
  omega

theorem parseUnicodeEscape_control (t : Nat) (ht : t < 32) (l : List Char) :
    parseUnicodeEscape ('0' :: '0' :: hexDigitChar (t / 16) :: hexDigitChar (t % 16) :: l) =
      Except.ok (Char.ofNat t, l) := by
  simp only [parseUnicodeEscape, parseHex4_00 t ht l]
  rw [if_neg (by omega), if_neg (by omega)]

theorem parseEscape_quote (l : List Char) : parseEscape ('"' :: l) = Except.ok ('"', l) := rfl

theorem parseEscape_backslash (l : List Char) :
    parseEscape ('\\' :: l) = Except.ok ('\\', l) := rfl

theorem parseEscape_b (l : List Char) : parseEscape ('b' :: l) = Except.ok ('\x08', l) := rfl

theorem parseEscape_t (l : List Char) : parseEscape ('t' :: l) = Except.ok ('\x09', l) := rfl

theorem parseEscape_n (l : List Char) : parseEscape ('n' :: l) = Except.ok ('\x0a', l) := rfl

theorem parseEscape_f (l : List Char) : parseEscape ('f' :: l) = Except.ok ('\x0c', l) := rfl

theorem parseEscape_r (l : List Char) : parseEscape ('r' :: l) = Except.ok ('\x0d', l) := rfl

theorem parseEscape_u (l : List Char) : parseEscape ('u' :: l) = parseUnicodeEscape l := rfl

theorem parseStrBody_quote (f : Nat) (l : List Char) :
    parseStrBody (f + 1) ('"' :: l) = Except.ok ([], l) := rfl

theorem parseStrBody_backslash (f : Nat) (l : List Char) :
    parseStrBody (f + 1) ('\\' :: l) =
      match parseEscape l with
      | Except.error e => Except.error e
      | Except.ok (ch, rest2) =>
        match parseStrBody f rest2 with
        | Except.error e => Except.error e
        | Except.ok (s, rest3) => Except.ok (ch :: s, rest3) := rfl

theorem parseStrBody_escString : ∀ (s rest : List Char) (fuel : Nat),
    (escString s).length < fuel →
    parseStrBody fuel (escString s ++ '"' :: rest) = Except.ok (s, rest) := by
  intro s
  induction s with
  | nil =>
    intro rest fuel h
    cases fuel with
    | zero => exact (Nat.not_lt_zero _ h).elim
    | succ f => rfl
  | cons c s0 ih =>
    intro rest fuel h
    rw [escString_cons] at h ⊢
    have hlen : 1 ≤ (escapeChar c).length := escapeChar_length_pos c
    cases fuel with
    | zero => exact (Nat.not_lt_zero _ h).elim
    | succ f =>
      have hf : (escString s0).length < f := by
        simp only [List.length_append] at h
        omega
      have ihs := ih rest f hf
      by_cases h1 : c = '"'
      · subst h1
        simp only [show escapeChar '"' = ['\\', '"'] from rfl, List.cons_append,
          List.nil_append, List.append_assoc, parseStrBody_backslash, parseEscape_quote, ihs]
      · by_cases h2 : c = '\\'
        · subst h2
          simp only [show escapeChar '\\' = ['\\', '\\'] from rfl, List.cons_append,
            List.nil_append, List.append_assoc, parseStrBody_backslash,
            parseEscape_backslash, ihs]
        · by_cases h3 : c = '\x08'
          · subst h3
            simp only [show escapeChar '\x08' = ['\\', 'b'] from rfl, List.cons_append,
              List.nil_append, List.append_assoc, parseStrBody_backslash, parseEscape_b, ihs]
          · by_cases h4 : c = '\x09'
            · subst h4
              simp only [show escapeChar '\x09' = ['\\', 't'] from rfl, List.cons_append,
                List.nil_append, List.append_assoc, parseStrBody_backslash, parseEscape_t, ihs]
            · by_cases h5 : c = '\x0a'
              · subst h5
                simp only [show escapeChar '\x0a' = ['\\', 'n'] from rfl, List.cons_append,
                  List.nil_append, List.append_assoc, parseStrBody_backslash, parseEscape_n, ihs]
              · by_cases h6 : c = '\x0c'
                · subst h6
                  simp only [show escapeChar '\x0c' = ['\\', 'f'] from rfl, List.cons_append,
                    List.nil_append, List.append_assoc, parseStrBody_backslash,
                    parseEscape_f, ihs]
                · by_cases h7 : c = '\x0d'
                  · subst h7
                    simp only [show escapeChar '\x0d' = ['\\', 'r'] from rfl,
                      List.cons_append, List.nil_append, List.append_assoc,
                      parseStrBody_backslash, parseEscape_r, ihs]
                  · by_cases h8 : c.toNat < 32
                    · have hesc : escapeChar c = ['\\', 'u', '0', '0',
                          hexDigitChar (c.toNat / 16), hexDigitChar (c.toNat % 16)] := by
                        unfold escapeChar
                        rw [if_neg h1, if_neg h2, if_neg h3, if_neg h4, if_neg h5,
                          if_neg h6, if_neg h7, if_pos h8]
                      rw [hesc]
                      simp only [List.cons_append, List.nil_append, List.append_assoc,
                        parseStrBody_backslash, parseEscape_u,
                        parseUnicodeEscape_control c.toNat h8, Char.ofNat_toNat, ihs]
                    · have hesc : escapeChar c = [c] := by
                        unfold escapeChar
                        rw [if_neg h1, if_neg h2, if_neg h3, if_neg h4, if_neg h5,
                          if_neg h6, if_neg h7, if_neg h8]
                      rw [hesc, List.singleton_append]
                      simp only [parseStrBody, if_neg h1, if_neg h2, if_neg h8, List.append_eq, ihs]

theorem parseJsonString_quote (fuel : Nat) (l : List Char) :
    parseJsonString fuel ('"' :: l) =
      match parseStrBody fuel l with
      | Except.error e => Except.error e
      | Except.ok (s, rest2) => Except.ok (String.mk s, rest2) := rfl

theorem renderStringChars_append (s : String) (rest : List Char) :
    renderStringChars s ++ rest = '"' :: (escString s.data ++ ('"' :: rest)) := by
  simp [renderStringChars]

theorem parseJsonString_render (s : String) (rest : List Char) (fuel : Nat)
    (h : (escString s.data).length < fuel) :
    parseJsonString fuel (renderStringChars s ++ rest) = Except.ok (s, rest) := by
  rw [renderStringChars_append, parseJsonString_quote,
    parseStrBody_escString s.data rest fuel h]

theorem renderStringChars_length (s : String) :
    (renderStringChars s).length = (escString s.data).length + 2 := by
  simp [renderStringChars]

theorem renderMember_length (kv : String × String) :
    (renderMember kv).length =
      (escString kv.1.data).length + (escString kv.2.data).length + 5 := by
  simp only [renderMember, List.length_append, List.length_cons, renderStringChars_length]
  omega

theorem skipWs_quote (l : List Char) : skipWs ('"' :: l) = '"' :: l := rfl

theorem skipWs_colon (l : List Char) : skipWs (':' :: l) = ':' :: l := rfl

theorem skipWs_comma (l : List Char) : skipWs (',' :: l) = ',' :: l := rfl

theorem renderMember_cons_shape (kv : String × String) (y : List Char) :
    renderMember kv ++ y =
      '"' :: (escString kv.1.data ++ ('"' :: (':' :: (renderStringChars kv.2 ++ y)))) := by
  rw [renderMember, renderStringChars]
  simp [List.cons_append, List.append_assoc]

theorem skipWs_renderMember_append (kv : String × String) (y : List Char) :
    skipWs (renderMember kv ++ y) = renderMember kv ++ y := by
  rw [renderMember_cons_shape]
  rfl

theorem parseMember_render (kv : String × String) (rest : List Char) (fuel : Nat)
    (hk : (escString kv.1.data).length < fuel) (hv : (escString kv.2.data).length < fuel) :
    parseMember fuel (renderMember kv ++ rest) = Except.ok (kv, rest) := by
  have hshape : renderMember kv ++ rest =
      renderStringChars kv.1 ++ (':' :: (renderStringChars kv.2 ++ rest)) := by
    simp [renderMember]
  have hsw : skipWs (renderStringChars kv.2 ++ rest) = renderStringChars kv.2 ++ rest := by
    rw [renderStringChars_append]
    rfl
  unfold parseMember
  rw [hshape, parseJsonString_render kv.1 (':' :: (renderStringChars kv.2 ++ rest)) fuel hk]
  simp only [skipWs_colon, hsw, parseJsonString_render kv.2 rest fuel hv]

theorem renderMembersRest_length_cons (kv : String × String) (tl : List (String × String)) :
    (renderMembersRest (kv :: tl)).length =
      1 + (renderMember kv).length + (renderMembersRest tl).length := by
  simp only [renderMembersRest, List.length_cons, List.length_append]
  omega

theorem parseMembersRest_render : ∀ (fields : List (String × String))
    (acc : List (String × String)) (rest : List Char) (fuel : Nat),
    (renderMembersRest fields).length < fuel →
    parseMembersRest fuel acc (renderMembersRest fields ++ rest) =
      Except.ok (insertAll acc fields, rest) := by
  intro fields
  induction fields with
  | nil =>
    intro acc rest fuel h
    cases fuel with
    | zero => exact (Nat.not_lt_zero _ h).elim
    | succ f => rfl
  | cons kv tl ih =>
    intro acc rest fuel h
    cases fuel with
    | zero => exact (Nat.not_lt_zero _ h).elim
    | succ f =>
      rw [renderMembersRest_length_cons, renderMember_length] at h
      have hk : (escString kv.1.data).length < f := by omega
      have hv : (escString kv.2.data).length < f := by omega
      have htl : (renderMembersRest tl).length < f := by omega
      have hshape : renderMembersRest (kv :: tl) ++ rest =
          ',' :: (renderMember kv ++ (renderMembersRest tl ++ rest)) := by
        simp [renderMembersRest]
      rw [hshape]
      simp only [parseMembersRest, skipWs_comma]
      rw [skipWs_renderMember_append,
        parseMember_render kv (renderMembersRest tl ++ rest) f hk hv]
      exact ih (insertKV acc kv.1 kv.2) rest f htl

theorem renderMap_length_cons (kv : String × String) (tl : List (String × String)) :
    (renderMap (kv :: tl)).length =
      1 + (renderMember kv).length + (renderMembersRest tl).length := by
  simp only [renderMap, List.length_cons, List.length_append]
  omega

theorem parseJsonObject_render (m : List (String × String)) (rest : List Char) (fuel : Nat)
    (h : (renderMap m).length ≤ fuel) :
    parseJsonObject fuel (renderMap m ++ rest) = Except.ok (insertAll [] m, rest) := by
  cases m with
  | nil =>
    simp only [renderMap, List.cons_append, List.nil_append]
    rfl
  | cons kv tl =>
    rw [renderMap_length_cons, renderMember_length] at h
    have hk : (escString kv.1.data).length < fuel := by omega
    have hv : (escString kv.2.data).length < fuel := by omega
    have htl : (renderMembersRest tl).length < fuel := by omega
    have hshape : renderMap (kv :: tl) ++ rest =
        '\x7b' :: (renderMember kv ++ (renderMembersRest tl ++ rest)) := by
      simp [renderMap]
    have hcons := renderMember_cons_shape kv (renderMembersRest tl ++ rest)
    have hstep : parseJsonObject fuel
        ('\x7b' :: (renderMember kv ++ (renderMembersRest tl ++ rest))) =
        match parseMember fuel (renderMember kv ++ (renderMembersRest tl ++ rest)) with
        | Except.error e => Except.error e
        | Except.ok (kv2, r3) => parseMembersRest fuel [(kv2.1, kv2.2)] r3 := by
      rw [hcons]
      rfl
    rw [hshape, hstep, parseMember_render kv (renderMembersRest tl ++ rest) fuel hk hv]
    exact parseMembersRest_render tl [(kv.1, kv.2)] rest fuel htl

theorem parseJsonStrMap_render (m : List (String × String)) :
    parseJsonStrMap (String.mk (renderMap m)) = Except.ok (insertAll [] m) := by
  have hdata : (String.mk (renderMap m)).data = renderMap m := rfl
  have hsw : skipWs (renderMap m) = renderMap m := by cases m <;> rfl
  have hobj := parseJsonObject_render m [] ((renderMap m).length + 1) (by omega)
  rw [List.append_nil] at hobj
  simp only [parseJsonStrMap, hdata, hsw, hobj]
  rfl

theorem insertKV_of_not_mem (m : List (String × String)) (k v : String)
    (h : k ∉ m.map Prod.fst) : insertKV m k v = m ++ [(k, v)] := by
  induction m with
  | nil => rfl
  | cons kv0 rest ih =>
    obtain ⟨k0, v0⟩ := kv0
    simp only [List.map_cons, List.mem_cons] at h
    push_neg at h
    obtain ⟨hne, hrest⟩ := h
    simp only [insertKV, if_neg (fun he : k0 = k => hne he.symm), List.cons_append,
      List.cons.injEq, true_and]
    exact ih hrest

theorem mem_keys_insertKV (m : List (String × String)) (k v : String) (x : String)
    (hx : x ∈ (insertKV m k v).map Prod.fst) : x ∈ m.map Prod.fst ∨ x = k := by
  induction m with
  | nil =>
    rw [show insertKV [] k v = [(k, v)] from rfl, List.map_singleton,
      List.mem_singleton] at hx
    exact Or.inr hx
  | cons kv0 rest ih =>
    obtain ⟨k0, v0⟩ := kv0
    by_cases he : k0 = k
    · rw [show insertKV ((k0, v0) :: rest) k v = if k0 = k then (k, v) :: rest
          else (k0, v0) :: insertKV rest k v from rfl, if_pos he] at hx
      rw [List.map_cons, List.mem_cons] at hx
      rcases hx with h1 | h2
      · exact Or.inr h1
      · exact Or.inl (by rw [List.map_cons, List.mem_cons]; exact Or.inr h2)
    · rw [show insertKV ((k0, v0) :: rest) k v = if k0 = k then (k, v) :: rest
          else (k0, v0) :: insertKV rest k v from rfl, if_neg he] at hx
      rw [List.map_cons, List.mem_cons] at hx
      rcases hx with h1 | h2
      · exact Or.inl (by rw [List.map_cons, List.mem_cons]; exact Or.inl h1)
      · rcases ih h2 with h3 | h4
        · exact Or.inl (by rw [List.map_cons, List.mem_cons]; exact Or.inr h3)
        · exact Or.inr h4

theorem insertKV_keys_nodup (m : List (String × String)) (k v : String)
    (h : (m.map Prod.fst).Nodup) : ((insertKV m k v).map Prod.fst).Nodup := by
  induction m with
  | nil =>
    rw [show insertKV [] k v = [(k, v)] from rfl]
    exact List.nodup_singleton _
  | cons kv0 rest ih =>
    obtain ⟨k0, v0⟩ := kv0
    rw [List.map_cons, List.nodup_cons] at h
    obtain ⟨hnot, hrest⟩ := h
    by_cases he : k0 = k
    · rw [show insertKV ((k0, v0) :: rest) k v = if k0 = k then (k, v) :: rest
          else (k0, v0) :: insertKV rest k v from rfl, if_pos he]
      rw [List.map_cons, List.nodup_cons]
      subst he
      exact ⟨hnot, hrest⟩
    · rw [show insertKV ((k0, v0) :: rest) k v = if k0 = k then (k, v) :: rest
          else (k0, v0) :: insertKV rest k v from rfl, if_neg he]
      rw [List.map_cons, List.nodup_cons]
      refine ⟨fun hx => ?_, ih hrest⟩
      rcases mem_keys_insertKV rest k v k0 hx with h1 | h2
      · exact hnot h1
      · exact he h2

theorem insertAll_of_nodup : ∀ (fields acc : List (String × String)),
    ((acc ++ fields).map Prod.fst).Nodup → insertAll acc fields = acc ++ fields := by
  intro fields
  induction fields with
  | nil =>
    intro acc h
    simp [insertAll]
  | cons kv tl ih =>
    intro acc h
    obtain ⟨k, v⟩ := kv
    have h0 := h
    rw [show acc ++ (k, v) :: tl = (acc ++ [(k, v)]) ++ tl by simp] at h0
    have hk : k ∉ acc.map Prod.fst := by
      have h1 : (acc.map Prod.fst ++ k :: tl.map Prod.fst).Nodup := by simpa using h
      rw [List.nodup_append] at h1
      exact fun hin => h1.2.2 hin (List.mem_cons_self _ _)
    have hstep : insertAll acc ((k, v) :: tl) = insertAll (insertKV acc k v) tl := rfl
    rw [hstep, insertKV_of_not_mem acc k v hk, ih (acc ++ [(k, v)]) h0,
      List.append_assoc, List.singleton_append]

theorem parseMembersRest_keys_nodup : ∀ (fuel : Nat) (acc : List (String × String))
    (l : List Char) (m : List (String × String)) (r : List Char),
    parseMembersRest fuel acc l = Except.ok (m, r) →
    (acc.map Prod.fst).Nodup → (m.map Prod.fst).Nodup := by
  intro fuel
  induction fuel with
  | zero =>
    intro acc l m r h
    exact absurd h (by simp [parseMembersRest])
  | succ f ih =>
    intro acc l m r h hacc
    unfold parseMembersRest at h
    split at h
    · injection h with h1
      injection h1 with ha hb
      subst ha
      exact hacc
    · split at h
      · contradiction
      · exact ih _ _ _ _ h (insertKV_keys_nodup _ _ _ hacc)
    · contradiction

theorem parseJsonObject_keys_nodup (fuel : Nat) (l : List Char)
    (m : List (String × String)) (r : List Char)
    (h : parseJsonObject fuel l = Except.ok (m, r)) : (m.map Prod.fst).Nodup := by
  unfold parseJsonObject at h
  split at h
  · split at h
    · injection h with h1
      injection h1 with ha hb
      subst ha
      simp
    · split at h
      · contradiction
      · exact parseMembersRest_keys_nodup _ _ _ _ _ h (by simp)
  · contradiction

theorem parseJsonStrMap_keys_nodup (s : String) (m : List (String × String))
    (h : parseJsonStrMap s = Except.ok m) : (m.map Prod.fst).Nodup := by
  simp only [parseJsonStrMap] at h
  split at h
  · contradiction
  · rename_i m0 hobj
    split at h
    · injection h with h1
      subst h1
      exact parseJsonObject_keys_nodup _ _ _ _ hobj
    · contradiction

theorem cursor_render_fromStr (c : Cursor) (h : (c.fields.map Prod.fst).Nodup) :
    Cursor.fromStr (Cursor.render c) = Except.ok c := by
  unfold Cursor.fromStr Cursor.render
  rw [parseJsonStrMap_render c.fields,
    insertAll_of_nodup c.fields [] (by simpa using h)]
  rfl

/-- C4: for every representable raw position (a mapping from string
field names to string values, i.e. with pairwise-distinct keys),
encoding it with the Display impl and decoding the result with
Cursor::from_str returns Ok of a value structurally equal to the
original, whatever order the fields were serialized in (the field list
here is the arbitrary iteration order of the hash map). -/
theorem c4_cursor_roundtrip (c : Cursor) (h : (c.fields.map Prod.fst).Nodup) :
    Cursor.fromStr (Cursor.render c) = Except.ok c :=
  cursor_render_fromStr c h

/-- Witness for C4 at a concrete two-field cursor. -/
theorem c4_cursor_roundtrip_witness :
    ((Cursor.mk [("GSI1_PK", "TOPIC#news"), ("GSI1_SK", "SUBMS#0000000005")]).fields.map
      Prod.fst).Nodup ∧
    Cursor.fromStr (Cursor.render (Cursor.mk [("GSI1_PK", "TOPIC#news"),
      ("GSI1_SK", "SUBMS#0000000005")])) =
      Except.ok (Cursor.mk [("GSI1_PK", "TOPIC#news"), ("GSI1_SK", "SUBMS#0000000005")]) :=
  ⟨by decide, c4_cursor_roundtrip _ (by decide)⟩

/-- C3 counterexample: the empty JSON object parses and is missing
every key field a resume position needs, yet Cursor::from_str accepts
it, so the claim that semantically incomplete tokens are rejected is
false on the code. -/
theorem c3_missing_fields_accepted :
    Cursor.fromStr "\x7b\x7d" = Except.ok (Cursor.mk []) := by decide

/-- C3 (amended): decoding a cursor never panics (Cursor::from_str is a
total function into a result) and never silently truncates: every
accepted value is the faithfully parsed map, which re-encodes and
decodes to itself.  Syntactically invalid input is rejected, but no
required-key-field check exists: any well-formed JSON object of string
fields is accepted, however incomplete. -/
theorem c3_decode_total_roundtrip (s : String) (c : Cursor)
    (h : Cursor.fromStr s = Except.ok c) :
    Cursor.fromStr (Cursor.render c) = Except.ok c := by
  have hm : parseJsonStrMap s = Except.ok c.fields := by
    unfold Cursor.fromStr at h
    split at h
    · contradiction
    · rename_i m heq
      injection h with h1
      rw [← h1]
      exact heq
  exact cursor_render_fromStr c (parseJsonStrMap_keys_nodup s c.fields hm)

/-- Witness for C3 at the empty-object token. -/
theorem c3_decode_total_roundtrip_witness :
    Cursor.fromStr "\x7b\x7d" = Except.ok (Cursor.mk []) ∧
    Cursor.fromStr (Cursor.render (Cursor.mk [])) = Except.ok (Cursor.mk []) :=
  ⟨by decide, c3_decode_total_roundtrip "\x7b\x7d" (Cursor.mk []) (by decide)⟩

/-- C1 (evaluation at the failing input): the source passes the reverse
flag to ScanIndexForward unnegated, so with reverse unset (or false)
the planner issues a DESCENDING scan, not the ascending one the spec
requires; over a snapshot with scores 1 and 5 under topic "news" the
default call returns [5, 1] and reverse=Some(true) returns the
ascending [1, 5]. -/
theorem c1_default_scan_is_descending :
    (api.planQuery (api.ListItemsByTopicInput.new "news") none).scanIndexForward = false ∧
    api.listItemsByTopic api.attrConvOk snapNews (api.ListItemsByTopicInput.new "news") =
      Except.ok (api.ListItemsByTopicOutput.mk
        [newsSubmission "idB" 5, newsSubmission "idA" 1] none) ∧
    api.listItemsByTopic api.attrConvOk snapNews
      { api.ListItemsByTopicInput.new "news" with reverse := some true } =
      Except.ok (api.ListItemsByTopicOutput.mk
        [newsSubmission "idA" 1, newsSubmission "idB" 5] none) :=
  ⟨rfl, by decide, by decide⟩

/-- C2 counterexample: a supplied limit of 0 is not a positive integer,
yet list_items_by_topic does not fail with BadRequest: it issues the
scan with that limit and returns Ok with an empty page. -/
theorem c2_zero_limit_not_bad_request :
    api.isBadRequest (api.listItemsByTopic api.attrConvOk snapNews
      { api.ListItemsByTopicInput.new "news" with limit := some 0 }) = false ∧
    api.listItemsByTopic api.attrConvOk snapNews
      { api.ListItemsByTopicInput.new "news" with limit := some 0 } =
      Except.ok (api.ListItemsByTopicOutput.mk [] none) :=
  ⟨by decide, by decide⟩

/-- C2 (amended): list_items_by_topic uses the page size 30 when
input.limit is None and passes any supplied limit through to the issued
scan unvalidated; it never produces the BadRequest error, for any
input — a zero or negative limit is sent to the store as-is. -/
theorem c2_limit_default_and_passthrough (conv : Cursor → Except String api.KeyImage)
    (snapshot : List submission.Submission) (inp : api.ListItemsByTopicInput)
    (esk : Option api.KeyImage) :
    (api.planQuery inp esk).limit = inp.limit.getD 30 ∧
    api.isBadRequest (api.listItemsByTopic conv snapshot inp) = false := by
  constructor
  · rfl
  · unfold api.listItemsByTopic api.resolveStartKey
    rcases hsc : inp.startCursor with _ | cur
    · simp only [hsc]
      rfl
    · rcases hc : conv cur with e | lk
      · simp only [hsc, hc]
        rfl
      · simp only [hsc, hc]
        rfl

/-- C5: when a start cursor is supplied and its conversion into an
exclusive start key fails, list_items_by_topic returns the
InvalidInputData error carrying that failure and returns no page of
items — the query is never issued. -/
theorem c5_bad_cursor_invalid_input (conv : Cursor → Except String api.KeyImage)
    (snapshot : List submission.Submission) (inp : api.ListItemsByTopicInput)
    (cur : Cursor) (e : String)
    (hc : inp.startCursor = some cur) (hconv : conv cur = Except.error e) :
    api.listItemsByTopic conv snapshot inp =
      Except.error (api.Error.invalidInputData e) := by
  unfold api.listItemsByTopic api.resolveStartKey
  simp only [hc, hconv]

/-- Witness for C5 with a failing conversion. -/
theorem c5_bad_cursor_invalid_input_witness :
    ({ api.ListItemsByTopicInput.new "news" with startCursor := some (Cursor.mk []) } :
      api.ListItemsByTopicInput).startCursor = some (Cursor.mk []) ∧
    api.attrConvFail (Cursor.mk []) = Except.error "conversion failed" ∧
    api.listItemsByTopic api.attrConvFail snapNews
      { api.ListItemsByTopicInput.new "news" with startCursor := some (Cursor.mk []) } =
      Except.error (api.Error.invalidInputData "conversion failed") :=
  ⟨rfl, rfl, c5_bad_cursor_invalid_input api.attrConvFail snapNews
    { api.ListItemsByTopicInput.new "news" with startCursor := some (Cursor.mk []) }
    (Cursor.mk []) "conversion failed" rfl rfl⟩

/-- C8: for every valid (non-empty) entity id accepted by
EntityId::from, the primary key of each entity kind has sort key
exactly "A" and partition key exactly the kind tag, then '#', then the
id: SUBMS for submissions, COMMT for comments, REPLY for replies. -/
theorem c8_primary_keys (s : String) (id : EntityId)
    (h : EntityId.fromStr s = Except.ok id) :
    submission.PrimaryKey.new id = submission.PrimaryKey.mk ("SUBMS#" ++ s) "A" ∧
    comment.PrimaryKey.new id = comment.PrimaryKey.mk ("COMMT#" ++ s) "A" ∧
    reply.PrimaryKey.new id = reply.PrimaryKey.mk ("REPLY#" ++ s) "A" := by
  unfold EntityId.fromStr at h
  split at h
  · injection h with h1
    subst h1
    exact ⟨rfl, rfl, rfl⟩
  · contradiction

/-- Witness for C8 at the id "id1". -/
theorem c8_primary_keys_witness :
    EntityId.fromStr "id1" = Except.ok (EntityId.mk "id1") ∧
    submission.PrimaryKey.new (EntityId.mk "id1") =
      submission.PrimaryKey.mk "SUBMS#id1" "A" ∧
    comment.PrimaryKey.new (EntityId.mk "id1") = comment.PrimaryKey.mk "COMMT#id1" "A" ∧
    reply.PrimaryKey.new (EntityId.mk "id1") = reply.PrimaryKey.mk "REPLY#id1" "A" :=
  ⟨by decide, (c8_primary_keys "id1" (EntityId.mk "id1") (by decide)).1,
    (c8_primary_keys "id1" (EntityId.mk "id1") (by decide)).2.1,
    (c8_primary_keys "id1" (EntityId.mk "id1") (by decide)).2.2⟩

/-- C9: every record a builder's build() returns stores index keys
equal to what the key encoder derives fresh from the record's own
stored attributes, for all three entity kinds. -/
theorem c9_built_records_key_consistency (freshId : EntityId) (now : Int)
    (sb : submission.SubmissionBuilder) (cb : comment.CommentBuilder)
    (rb : reply.ReplyBuilder) :
    (∀ s, submission.SubmissionBuilder.build freshId now sb = Except.ok s →
      s.primaryKey = submission.PrimaryKey.new s.id ∧
      s.topicKey = submission.TopicIndexKey.new s.topic s.rankingScore ∧
      s.authorKey = submission.AuthorIndexKey.new s.authorId s.createdAt) ∧
    (∀ c, comment.CommentBuilder.build freshId now cb = Except.ok c →
      c.primaryKey = comment.PrimaryKey.new c.id ∧
      c.submissionKey = comment.SubmissionIndexKey.new c.submissionId c.rankingScore ∧
      c.authorKey = comment.AuthorIndexKey.new c.authorId c.createdAt) ∧
    (∀ r, reply.ReplyBuilder.build freshId now rb = Except.ok r →
      r.primaryKey = reply.PrimaryKey.new r.id ∧
      r.submissionCommentKey = reply.SubmissionCommentIndexKey.new r.submissionId
        r.commentId r.createdAt ∧
      r.authorKey = reply.AuthorIndexKey.new r.authorId r.createdAt) := by
  refine ⟨fun s h => ?_, fun c h => ?_, fun r h => ?_⟩
  · simp only [submission.SubmissionBuilder.build] at h
    repeat' split at h
    all_goals first
      | contradiction
      | (injection h with h1; subst h1; exact ⟨rfl, rfl, rfl⟩)
  · simp only [comment.CommentBuilder.build] at h
    repeat' split at h
    all_goals first
      | contradiction
      | (injection h with h1; subst h1; exact ⟨rfl, rfl, rfl⟩)
  · simp only [reply.ReplyBuilder.build] at h
    repeat' split at h
    all_goals first
      | contradiction
      | (injection h with h1; subst h1; exact ⟨rfl, rfl, rfl⟩)

/-- Witness for C9 at fully specified builders of each kind. -/
theorem c9_built_records_key_consistency_witness :
    (sBuilt.primaryKey = submission.PrimaryKey.new sBuilt.id ∧
      sBuilt.topicKey = submission.TopicIndexKey.new sBuilt.topic sBuilt.rankingScore ∧
      sBuilt.authorKey = submission.AuthorIndexKey.new sBuilt.authorId sBuilt.createdAt) ∧
    (cBuilt.primaryKey = comment.PrimaryKey.new cBuilt.id ∧
      cBuilt.submissionKey = comment.SubmissionIndexKey.new cBuilt.submissionId
        cBuilt.rankingScore ∧
      cBuilt.authorKey = comment.AuthorIndexKey.new cBuilt.authorId cBuilt.createdAt) ∧
    (rBuilt.primaryKey = reply.PrimaryKey.new rBuilt.id ∧
      rBuilt.submissionCommentKey = reply.SubmissionCommentIndexKey.new rBuilt.submissionId
        rBuilt.commentId rBuilt.createdAt ∧
      rBuilt.authorKey = reply.AuthorIndexKey.new rBuilt.authorId rBuilt.createdAt) :=
  ⟨(c9_built_records_key_consistency (EntityId.mk "f") 0 sbWitness cbWitness rbWitness).1
      sBuilt (by decide),
    (c9_built_records_key_consistency (EntityId.mk "f") 0 sbWitness cbWitness rbWitness).2.1
      cBuilt (by decide),
    (c9_built_records_key_consistency (EntityId.mk "f") 0 sbWitness cbWitness rbWitness).2.2
      rBuilt (by decide)⟩

/-- C10: CommentBuilder::with_topic has no effect on the built record:
for a builder supplying id, created_at and updated_at, building after
with_topic(t1) equals building after with_topic(t2) (for any fresh-id
and now environments) and equals building without calling with_topic at
all — the topic never reaches any field of the Comment. -/
theorem c10_with_topic_no_effect (b : comment.CommentBuilder) (t1 t2 : String)
    (f1 f2 : EntityId) (n1 n2 : Int)
    (hid : b.id.isSome) (hca : b.createdAt.isSome) (hua : b.updatedAt.isSome) :
    comment.CommentBuilder.build f1 n1 (comment.CommentBuilder.withTopic t1 b) =
      comment.CommentBuilder.build f2 n2 (comment.CommentBuilder.withTopic t2 b) ∧
    comment.CommentBuilder.build f1 n1 (comment.CommentBuilder.withTopic t1 b) =
      comment.CommentBuilder.build f1 n1 b := by
  obtain ⟨bid, bsid, baid, btop, brs, btxt, bnl, bnr, bca, bua⟩ := b
  simp only [Option.isSome] at hid hca hua
  rcases bid with _ | i
  · simp at hid
  rcases bca with _ | ca
  · simp at hca
  rcases bua with _ | ua
  · simp at hua
  refine ⟨?_, ?_⟩ <;> (cases bsid <;> cases baid <;> cases brs <;> cases btxt <;> rfl)

/-- Witness for C10 at a fully specified comment builder. -/
theorem c10_with_topic_no_effect_witness :
    (cbWitness.id.isSome ∧ cbWitness.createdAt.isSome ∧ cbWitness.updatedAt.isSome) ∧
    comment.CommentBuilder.build (EntityId.mk "f1") 1
        (comment.CommentBuilder.withTopic "a" cbWitness) =
      comment.CommentBuilder.build (EntityId.mk "f2") 2
        (comment.CommentBuilder.withTopic "b" cbWitness) ∧
    comment.CommentBuilder.build (EntityId.mk "f1") 1
        (comment.CommentBuilder.withTopic "a" cbWitness) =
      comment.CommentBuilder.build (EntityId.mk "f1") 1 cbWitness :=
  ⟨⟨by decide, by decide, by decide⟩,
    (c10_with_topic_no_effect cbWitness "a" "b" (EntityId.mk "f1") (EntityId.mk "f2") 1 2
      (by decide) (by decide) (by decide)).1,
    (c10_with_topic_no_effect cbWitness "a" "b" (EntityId.mk "f1") (EntityId.mk "f2") 1 2
      (by decide) (by decide) (by decide)).2⟩
